import Mathlib

/-!
Verification development for the shiftReport repository.

Shallow embedding of the parser and classification engine of
`src/app_desktop.py` (the complete, later variant; `src/test.py` is a
near-duplicate draft).  Pure Python string/list manipulation is translated
to Lean functions over `String` and `List`; pandas row filtering
(`df[mask]`) is translated to `List.filter`, which preserves insertion
order exactly as pandas boolean-mask indexing does.
-/

namespace ShiftReport

/-- The record fields populated by the printed-CSV parser
(the values of `LABEL_MAP` in `app_desktop.py`). -/
inductive Field where
  | logNumber
  | department
  | property
  | owner
  | location
  | createdBy
  | sublocation
  | occurred
  | endTime
  | cameraMonitor
  | status
  | duration
  | topic
  | details
deriving DecidableEq, Repr

/-- One parsed log record: the dictionary built per row by
`parse_printed_csv_from_path`, with every labelled field a string
(default empty) plus the `HighPriorityBool` flag (default `false`). -/
structure Record where
  logNumber : String := ""
  department : String := ""
  property : String := ""
  owner : String := ""
  location : String := ""
  createdBy : String := ""
  sublocation : String := ""
  occurred : String := ""
  endTime : String := ""
  cameraMonitor : String := ""
  status : String := ""
  duration : String := ""
  topic : String := ""
  details : String := ""
  highPriority : Bool := false
deriving DecidableEq, Repr

/-- Drop leading whitespace characters from a character list. -/
def dropWs : List Char → List Char
  | [] => []
  | c :: cs => if c.isWhitespace then dropWs cs else c :: cs

/-- Python `str.strip()`: remove leading and trailing whitespace. -/
def pyStrip (s : String) : String :=
  ⟨dropWs ((dropWs s.data.reverse).reverse)⟩

/-- Python `str.upper()` (ASCII case mapping, which is all the
classification markers use). -/
def pyUpper (s : String) : String :=
  ⟨s.data.map Char.toUpper⟩

/-- Source `cur[key] = value` on the per-row dictionary. -/
def setField (r : Record) (f : Field) (v : String) : Record :=
  match f with
  | .logNumber => { r with logNumber := v }
  | .department => { r with department := v }
  | .property => { r with property := v }
  | .owner => { r with owner := v }
  | .location => { r with location := v }
  | .createdBy => { r with createdBy := v }
  | .sublocation => { r with sublocation := v }
  | .occurred => { r with occurred := v }
  | .endTime => { r with endTime := v }
  | .cameraMonitor => { r with cameraMonitor := v }
  | .status => { r with status := v }
  | .duration => { r with duration := v }
  | .topic => { r with topic := v }
  | .details => { r with details := v }

/-- The record with every field defaulted (`{k: "" for k in LABEL_MAP.values()}`
plus `HighPriorityBool = False`). -/
def emptyRecord : Record := {}

/-- Source `LABEL_MAP`: the fixed label-token → field mapping. -/
def LABEL_MAP : List (String × Field) :=
  [("Log #:", .logNumber),
   ("Department:", .department),
   ("Property:", .property),
   ("Owner:", .owner),
   ("Location:", .location),
   ("Created By:", .createdBy),
   ("Sublocation:", .sublocation),
   ("Occurred:", .occurred),
   ("End Time:", .endTime),
   ("Camera/Monitor:", .cameraMonitor),
   ("Status:", .status),
   ("Duration:", .duration),
   ("Topic:", .topic),
   ("Details:", .details)]

/-- Source `token in LABEL_MAP` / `LABEL_MAP[token]` combined: `some field` when
the token is a known field label, `none` otherwise. -/
def labelMap (s : String) : Option Field :=
  LABEL_MAP.lookup s

/-- Source `IGNORE_TOKENS`: boilerplate page header/footer strings skipped by the
parser. -/
def IGNORE_TOKENS : List String :=
  ["Daily Log Detailed List Report", "Page 1 / 1"]

/-- Source `HIGH_PRIORITY_TOKEN`: the bare marker token that sets the flag. -/
def HIGH_PRIORITY_TOKEN : String := "High Priority"

/-- The `while i < n` token-scanning loop of `parse_printed_csv_from_path`,
expressed as recursion over the remaining tokens of the row.  Branches, in
the source's order: skip empty/ignored tokens; the high-priority marker;
a field label with peek-ahead (consume the next token as the value only if
it is itself not a label, not the marker and not ignored, else leave the
field empty and reprocess the next token); any other token is discarded. -/
def parseRowAux : List String → Record → Record
  | [], cur => cur
  | [t], cur =>
    let token := pyStrip t
    if token = "" ∨ token ∈ IGNORE_TOKENS then
      cur
    else if token = HIGH_PRIORITY_TOKEN then
      { cur with highPriority := true }
    else
      match labelMap token with
      | none => cur
      | some key => setField cur key ""
  | t :: nxtTok :: rest2, cur =>
    let token := pyStrip t
    if token = "" ∨ token ∈ IGNORE_TOKENS then
      parseRowAux (nxtTok :: rest2) cur
    else if token = HIGH_PRIORITY_TOKEN then
      parseRowAux (nxtTok :: rest2) { cur with highPriority := true }
    else
      match labelMap token with
      | none => parseRowAux (nxtTok :: rest2) cur
      | some key =>
        let nxt := pyStrip nxtTok
        if labelMap nxt = none ∧ nxt ≠ HIGH_PRIORITY_TOKEN ∧ nxt ∉ IGNORE_TOKENS then
          parseRowAux rest2 (setField cur key nxt)
        else
          parseRowAux (nxtTok :: rest2) (setField cur key "")

/-- Scan of one raw CSV row starting from the all-empty record. -/
def parseRow (row : List String) : Record :=
  parseRowAux row emptyRecord

/-- The flush condition of `flush_record`:
`any(cur.get(k) for k in ["LogNumber", "Topic", "Details"])` —
Python truthiness of a string is non-emptiness. -/
def keepRecord (r : Record) : Bool :=
  r.logNumber ≠ "" ∨ r.topic ≠ "" ∨ r.details ≠ ""

/-- Source `flush_record`: append the in-progress record to the accumulated output
exactly when the flush condition holds. -/
def flush_record (recs : List Record) (cur : Record) : List Record :=
  if keepRecord cur then recs ++ [cur] else recs

/-- Source `parse_printed_csv_from_path`, abstracted over the already-read list of
CSV rows (csv.reader output): skip empty rows (`if not row: continue`),
scan each remaining row and flush.  The later DataFrame re-filter on
`Topic/Details/LogNumber` length repeats the flush condition and is a
no-op on this output. -/
def parse_printed_csv (rows : List (List String)) : List Record :=
  rows.foldl (fun acc row => if row = [] then acc else flush_record acc (parseRow row)) []

/-- Bool test that `pat` starts the character list `l`. -/
def listStartsWith : List Char → List Char → Bool
  | [], _ => true
  | _ :: _, [] => false
  | a :: as, b :: bs => a == b && listStartsWith as bs

/-- Bool test that `pat` occurs as a contiguous run inside `l`. -/
def listHasSub (pat : List Char) : List Char → Bool
  | [] => pat.isEmpty
  | c :: rest => listStartsWith pat (c :: rest) || listHasSub pat rest

/-- Python `pat in s` on strings: substring containment. -/
def substrOf (pat s : String) : Bool :=
  listHasSub pat.data s.data

/-- pandas `Series.str.contains(alt, case=False)` for one literal
alternative of the regex: case-insensitive substring containment. -/
def containsCI (s pat : String) : Bool :=
  substrOf (pyUpper pat) (pyUpper s)

/-- Source `topics_reviews` in `build_email_html`. -/
def topics_reviews : List String :=
  ["Requested Review", "Requested Observation", "Surveillance Initiated Review", "Service Review"]

/-- Source `topics_slots`. -/
def topics_slots : List String := ["Jackpot"]

/-- Source `topics_removals`. -/
def topics_removals : List String :=
  ["Removal", "Alcohol related removal", "PPA Issued/Violation",
   "Self-Exclusion Violation", "Self-Exclusion Application", "Behaviour Related Removal"]

/-- Source `topics_misc`. -/
def topics_misc : List String :=
  ["FINTRAC", "Information", "Security Escort", "Other", "Access Control",
   "Criminal Activity - Driving under the influence", "Criminal Activity - Theft",
   "Integrity - Unsecured Assets", "Integrity"]

/-- Source `topics_highlights`. -/
def topics_highlights : List String :=
  ["Straight Flush", "Kings Bounty", "Royal Flush", "Four of a Kind"]

/-- Source `topics_idshots`. -/
def topics_idshots : List String := ["Pit Scan"]

/-- Source `topics_parkade`. -/
def topics_parkade : List String := ["Parkade Scan"]

/-- Source `topics_visitors`. -/
def topics_visitors : List String := ["Surveillance Visitor Log"]

/-- Source `is_table_games_observation`: Observation-topic records routed to
TABLES when the uppercased location contains "PIT", or the uppercased
sublocation contains one of the table markers. -/
def is_table_games_observation (r : Record) : Bool :=
  if r.topic ≠ "Observation" then false
  else
    let loc := pyUpper r.location
    let sub := pyUpper r.sublocation
    if substrOf "PIT" loc then true
    else ["BJ", "RB", "RL", "UTH", "LIR", "POKER"].any (fun m => substrOf m sub)

/-- Source `is_table_games_site` (nested in `build_email_html`): the same
location/sublocation test without the topic guard, used for the
Procedural Error partition. -/
def is_table_games_site (r : Record) : Bool :=
  let loc := pyUpper r.location
  let sub := pyUpper r.sublocation
  if substrOf "PIT" loc then true
  else ["BJ", "RB", "RL", "UTH", "LIR", "POKER"].any (fun m => substrOf m sub)

/-- The mask `obs_df["Location"].str.contains("Cage|Count Room", case=False)`. -/
def obs_cage_pred (r : Record) : Bool :=
  containsCI r.location "Cage" || containsCI r.location "Count Room"

/-- The mask
`pro_df["Location"].str.contains("Cage|Count Room|Main Bank|TITO Self Redemption", case=False)`. -/
def pro_cage_pred (r : Record) : Bool :=
  containsCI r.location "Cage" || containsCI r.location "Count Room" ||
    containsCI r.location "Main Bank" || containsCI r.location "TITO Self Redemption"

/-- The high-priority filter at the top of `build_email_html`:
`df = df[df["HighPriorityBool"]]` when the toggle is on. -/
def hpFilter (records : List Record) (highPriorityOnly : Bool) : List Record :=
  if highPriorityOnly then records.filter (fun r => r.highPriority) else records

/-- Source `rows_by_topics`: `df[df["Topic"].isin(topics)]`. -/
def rows_by_topics (df : List Record) (topics : List String) : List Record :=
  df.filter (fun r => topics.contains r.topic)

/-- Source `handled_topics` in `build_email_html`: the union of every consumed
topic set (Python set union; only membership matters). -/
def handledTopics (redFlagTopics : List String) : List String :=
  topics_reviews ++ ["Observation"] ++ topics_slots ++ topics_removals ++
    topics_misc ++ topics_highlights ++ topics_idshots ++ topics_parkade ++
    topics_visitors ++ ["Procedural Error"] ++ redFlagTopics

/-- The per-section record selections computed by `build_email_html`
before joining: one field per rendered bucket. -/
structure Buckets where
  redFlags : List Record
  reviews : List Record
  highlights : List Record
  slots : List Record
  removals : List Record
  idShots : List Record
  parkade : List Record
  visitors : List Record
  miscTopic : List Record
  obsTables : List Record
  obsCageCount : List Record
  obsMisc : List Record
  proTables : List Record
  proCageCount : List Record
  proMisc : List Record
  notCategorized : List Record
deriving DecidableEq, Repr

/-- The bucket-selection stage of `build_email_html`.  pandas boolean-mask
and `~df.index.isin(...)` selections keep rows in their original order, so
each bucket is a `List.filter` of the filtered frame; the index-based
exclusions defining `obs_misc_df` and `pro_misc_rows_df` coincide with
negating the corresponding row predicates because frame indexes are
unique.  `redFlags` reflects the source's
`... if red_flag_topics else []` guard. -/
def classify (records : List Record) (highPriorityOnly : Bool)
    (redFlagTopics : List String) : Buckets :=
  let df := hpFilter records highPriorityOnly
  let obs := rows_by_topics df ["Observation"]
  let pro := rows_by_topics df ["Procedural Error"]
  { redFlags := if redFlagTopics = [] then [] else rows_by_topics df redFlagTopics
    reviews := rows_by_topics df topics_reviews
    highlights := rows_by_topics df topics_highlights
    slots := rows_by_topics df topics_slots
    removals := rows_by_topics df topics_removals
    idShots := rows_by_topics df topics_idshots
    parkade := rows_by_topics df topics_parkade
    visitors := rows_by_topics df topics_visitors
    miscTopic := rows_by_topics df topics_misc
    obsTables := obs.filter is_table_games_observation
    obsCageCount := obs.filter obs_cage_pred
    obsMisc := obs.filter (fun r => !is_table_games_observation r && !obs_cage_pred r)
    proTables := pro.filter is_table_games_site
    proCageCount := pro.filter pro_cage_pred
    proMisc := pro.filter (fun r => !pro_cage_pred r && !is_table_games_site r)
    notCategorized := df.filter (fun r => !(handledTopics redFlagTopics).contains r.topic) }

/-- Source `details_only`: the displayable unit per record is the stripped
`Details` text. -/
def details_only (r : Record) : String :=
  pyStrip r.details

/-- Source `lines_join_section`: empty list renders the placeholder "N/A";
compact sections join with a single `<br>`, spaced ones with `<br><br>`. -/
def lines_join_section (lines : List String) (compact : Bool) : String :=
  if lines = [] then "N/A"
  else String.intercalate (if compact then "<br>" else "<br><br>") lines

/-- The `if section == "N/A": section = ""` normalization applied to the
Highlights, combined Misc and Procedural-Error section strings. -/
def naToEmpty (s : String) : String :=
  if s = "N/A" then "" else s

/-- Source `misc_combined_df = pd.concat([obs_misc_df, misc_df], ignore_index=True)`:
non-table, non-cage Observations first, then the Misc-topic rows. -/
def miscCombined (b : Buckets) : List Record :=
  b.obsMisc ++ b.miscTopic

/-- Source `tables` section text (compact). -/
def tablesText (b : Buckets) : String :=
  lines_join_section (b.obsTables.map details_only) true

/-- Source `slots` section text (compact). -/
def slotsText (b : Buckets) : String :=
  lines_join_section (b.slots.map details_only) true

/-- Source `idshots` section text (compact). -/
def idShotsText (b : Buckets) : String :=
  lines_join_section (b.idShots.map details_only) true

/-- Source `parkade` section text (compact). -/
def parkadeText (b : Buckets) : String :=
  lines_join_section (b.parkade.map details_only) true

/-- Source `cage_count_html` section text: joined from the Cage/Count
Observations with `compact=True` in the source. -/
def cageCountText (b : Buckets) : String :=
  lines_join_section (b.obsCageCount.map details_only) true

/-- Source `visitors` section text: joined with `compact=True` in the source. -/
def visitorsText (b : Buckets) : String :=
  lines_join_section (b.visitors.map details_only) true

/-- Source `red_flags` section text (spaced). -/
def redFlagsText (b : Buckets) : String :=
  lines_join_section (b.redFlags.map details_only) false

/-- Source `reviews` section text (spaced). -/
def reviewsText (b : Buckets) : String :=
  lines_join_section (b.reviews.map details_only) false

/-- Source `removals` section text (spaced). -/
def removalsText (b : Buckets) : String :=
  lines_join_section (b.removals.map details_only) false

/-- Source `not_categorized` section text (spaced). -/
def notCategorizedText (b : Buckets) : String :=
  lines_join_section (b.notCategorized.map details_only) false

/-- Source `highlights` section text: spaced join, then "N/A" suppressed. -/
def highlightsText (b : Buckets) : String :=
  naToEmpty (lines_join_section (b.highlights.map details_only) false)

/-- Source `misc_other` section text: spaced join of the combined Misc rows,
then "N/A" suppressed. -/
def miscOtherText (b : Buckets) : String :=
  naToEmpty (lines_join_section ((miscCombined b).map details_only) false)

/-- Source `pro_tables_df` section text: spaced join, then "N/A" suppressed. -/
def proTablesText (b : Buckets) : String :=
  naToEmpty (lines_join_section (b.proTables.map details_only) false)

/-- Source `pro_cage_count_df` section text: spaced join, then "N/A" suppressed. -/
def proCageCountText (b : Buckets) : String :=
  naToEmpty (lines_join_section (b.proCageCount.map details_only) false)

/-- Source `pro_misc_df` section text: spaced join, then "N/A" suppressed. -/
def proMiscText (b : Buckets) : String :=
  naToEmpty (lines_join_section (b.proMisc.map details_only) false)

/-- All sixteen bucket selections, for per-record coverage statements. -/
def bucketLists (b : Buckets) : List (List Record) :=
  [b.redFlags, b.reviews, b.highlights, b.slots, b.removals, b.idShots,
   b.parkade, b.visitors, b.miscTopic, b.obsTables, b.obsCageCount,
   b.obsMisc, b.proTables, b.proCageCount, b.proMisc, b.notCategorized]

/-- A record appears in at least one of the sixteen buckets. -/
def inSomeBucket (r : Record) (b : Buckets) : Prop :=
  ∃ l ∈ bucketLists b, r ∈ l

/-- Concrete record: a high-priority Observation at a Cage location with a
blackjack sublocation marker, matching both Observation sub-predicates. -/
def obsCageBJ : Record :=
  { topic := "Observation", location := "Cage", sublocation := "BJ1",
    details := "x", highPriority := true }

/-- Concrete record: a high-priority Jackpot entry. -/
def jackpotRec : Record :=
  { topic := "Jackpot", details := "y", highPriority := true }

/-- Concrete record: a high-priority Observation in the Count Room with an
Ultimate Texas Holdem sublocation marker. -/
def obsCountUTH : Record :=
  { topic := "Observation", location := "Count Room", sublocation := "UTH2",
    details := "z", highPriority := true }

/-- Concrete record: a high-priority Procedural Error at Main Bank with a
poker sublocation marker. -/
def proMainBankPoker : Record :=
  { topic := "Procedural Error", location := "Main Bank", sublocation := "POKER 2",
    details := "w", highPriority := true }

/-- Concrete visitor-log records for the spacing checks. -/
def visA : Record := { topic := "Surveillance Visitor Log", details := "a", highPriority := true }

/-- Second concrete visitor-log record. -/
def visB : Record := { topic := "Surveillance Visitor Log", details := "b", highPriority := true }

/-- Concrete Cage Observation for the spacing checks. -/
def obsCageA : Record := { topic := "Observation", location := "Cage", details := "a", highPriority := true }

/-- Concrete Count Room Observation for the spacing checks. -/
def obsCageB : Record := { topic := "Observation", location := "Count Room", details := "b", highPriority := true }

/-- Concrete Jackpot record for the spacing checks. -/
def slotsA : Record := { topic := "Jackpot", details := "a", highPriority := true }

/-- Second concrete Jackpot record for the spacing checks. -/
def slotsB : Record := { topic := "Jackpot", details := "b", highPriority := true }

/-- Concrete review record for the spacing checks. -/
def reviewA : Record := { topic := "Requested Review", details := "a", highPriority := true }

/-- Second concrete review record for the spacing checks. -/
def reviewB : Record := { topic := "Requested Review", details := "b", highPriority := true }

/-- Concrete high-priority Jackpot record for the filter check. -/
def hpJackpot : Record := { topic := "Jackpot", details := "hp", highPriority := true }

/-- Concrete low-priority Jackpot record for the filter check. -/
def lpJackpot : Record := { topic := "Jackpot", details := "lp", highPriority := false }

/-- Concrete record with a topic outside every consumed topic set. -/
def unknownTopicRec : Record := { topic := "Zebra Crossing", details := "u", highPriority := true }

/-- Concrete highlight record whose details text is literally "N/A". -/
def naHighlight : Record := { topic := "Straight Flush", details := "N/A", highPriority := true }

/-- Concrete misc-topic record whose details text is literally "N/A". -/
def naMisc : Record := { topic := "Information", details := "N/A", highPriority := true }

/-- Concrete table-games Procedural Error whose details text is "N/A". -/
def naProTables : Record := { topic := "Procedural Error", location := "Pit 1", details := "N/A", highPriority := true }

/-- Concrete cage Procedural Error whose details text is "N/A". -/
def naProCage : Record := { topic := "Procedural Error", location := "Cage", details := "N/A", highPriority := true }

/-- Concrete residual Procedural Error whose details text is "N/A". -/
def naProMisc : Record := { topic := "Procedural Error", location := "Slot Floor", details := "N/A", highPriority := true }

/-- Record collection whose five suppressible sections all join to "N/A". -/
def naRecords : List Record := [naHighlight, naMisc, naProTables, naProCage, naProMisc]

/-! Helper lemmas. -/

/-- Successful association-list lookup implies membership of the pair. -/
theorem lookup_mem {β : Type} (s : String) (l : List (String × β)) (v : β)
    (h : l.lookup s = some v) : (s, v) ∈ l := by
  induction l with
  | nil => simp [List.lookup] at h
  | cons a t ih =>
    rw [List.lookup] at h
    by_cases hb : s == a.1
    · simp only [hb, if_pos] at h
      have hs := eq_of_beq hb
      obtain ⟨a1, a2⟩ := a
      simp only at hs
      subst hs
      simp only [Option.some.injEq] at h
      subst h
      exact List.mem_cons_self _ _
    · simp only [hb, Bool.false_eq_true, if_false] at h
      exact List.mem_cons_of_mem _ (ih h)

/-- A token recognized as a field label is non-empty, not ignored, and not
the high-priority marker, so the parser reaches the label branch on it. -/
theorem labelMap_guards (s : String) (k : Field) (h : labelMap s = some k) :
    ¬(s = "" ∨ s ∈ IGNORE_TOKENS) ∧ s ≠ HIGH_PRIORITY_TOKEN := by
  have hmem := lookup_mem s LABEL_MAP k h
  have hall : ∀ p ∈ LABEL_MAP,
      ¬(p.1 = "" ∨ p.1 ∈ IGNORE_TOKENS) ∧ p.1 ≠ HIGH_PRIORITY_TOKEN := by decide
  exact hall _ hmem

/-- Membership in a topic selection unfolds to frame membership plus topic
membership. -/
theorem mem_rows_by_topics {df : List Record} {topics : List String} {r : Record} :
    r ∈ rows_by_topics df topics ↔ r ∈ df ∧ r.topic ∈ topics := by
  unfold rows_by_topics
  rw [List.mem_filter]
  constructor
  · rintro ⟨h1, h2⟩
    exact ⟨h1, List.elem_iff.mp h2⟩
  · rintro ⟨h1, h2⟩
    exact ⟨h1, List.elem_iff.mpr h2⟩

/-- Projection of the red-flags bucket. -/
theorem classify_redFlags (records : List Record) (hp : Bool) (rfts : List String) :
    (classify records hp rfts).redFlags =
      (if rfts = [] then [] else rows_by_topics (hpFilter records hp) rfts) := rfl

/-- Projection of the reviews bucket. -/
theorem classify_reviews (records : List Record) (hp : Bool) (rfts : List String) :
    (classify records hp rfts).reviews = rows_by_topics (hpFilter records hp) topics_reviews := rfl

/-- Projection of the highlights bucket. -/
theorem classify_highlights (records : List Record) (hp : Bool) (rfts : List String) :
    (classify records hp rfts).highlights = rows_by_topics (hpFilter records hp) topics_highlights := rfl

/-- Projection of the slots bucket. -/
theorem classify_slots (records : List Record) (hp : Bool) (rfts : List String) :
    (classify records hp rfts).slots = rows_by_topics (hpFilter records hp) topics_slots := rfl

/-- Projection of the removals bucket. -/
theorem classify_removals (records : List Record) (hp : Bool) (rfts : List String) :
    (classify records hp rfts).removals = rows_by_topics (hpFilter records hp) topics_removals := rfl

/-- Projection of the id-shots bucket. -/
theorem classify_idShots (records : List Record) (hp : Bool) (rfts : List String) :
    (classify records hp rfts).idShots = rows_by_topics (hpFilter records hp) topics_idshots := rfl

/-- Projection of the parkade bucket. -/
theorem classify_parkade (records : List Record) (hp : Bool) (rfts : List String) :
    (classify records hp rfts).parkade = rows_by_topics (hpFilter records hp) topics_parkade := rfl

/-- Projection of the visitors bucket. -/
theorem classify_visitors (records : List Record) (hp : Bool) (rfts : List String) :
    (classify records hp rfts).visitors = rows_by_topics (hpFilter records hp) topics_visitors := rfl

/-- Projection of the misc-by-topic bucket. -/
theorem classify_miscTopic (records : List Record) (hp : Bool) (rfts : List String) :
    (classify records hp rfts).miscTopic = rows_by_topics (hpFilter records hp) topics_misc := rfl

/-- Projection of the Observation Tables sub-bucket. -/
theorem classify_obsTables (records : List Record) (hp : Bool) (rfts : List String) :
    (classify records hp rfts).obsTables =
      (rows_by_topics (hpFilter records hp) ["Observation"]).filter is_table_games_observation := rfl

/-- Projection of the Observation Cage/Count sub-bucket. -/
theorem classify_obsCageCount (records : List Record) (hp : Bool) (rfts : List String) :
    (classify records hp rfts).obsCageCount =
      (rows_by_topics (hpFilter records hp) ["Observation"]).filter obs_cage_pred := rfl

/-- Projection of the residual Observation sub-bucket. -/
theorem classify_obsMisc (records : List Record) (hp : Bool) (rfts : List String) :
    (classify records hp rfts).obsMisc =
      (rows_by_topics (hpFilter records hp) ["Observation"]).filter
        (fun r => !is_table_games_observation r && !obs_cage_pred r) := rfl

/-- Projection of the Procedural Error Tables sub-bucket. -/
theorem classify_proTables (records : List Record) (hp : Bool) (rfts : List String) :
    (classify records hp rfts).proTables =
      (rows_by_topics (hpFilter records hp) ["Procedural Error"]).filter is_table_games_site := rfl

/-- Projection of the Procedural Error Cage/Count sub-bucket. -/
theorem classify_proCageCount (records : List Record) (hp : Bool) (rfts : List String) :
    (classify records hp rfts).proCageCount =
      (rows_by_topics (hpFilter records hp) ["Procedural Error"]).filter pro_cage_pred := rfl

/-- Projection of the residual Procedural Error sub-bucket. -/
theorem classify_proMisc (records : List Record) (hp : Bool) (rfts : List String) :
    (classify records hp rfts).proMisc =
      (rows_by_topics (hpFilter records hp) ["Procedural Error"]).filter
        (fun r => !pro_cage_pred r && !is_table_games_site r) := rfl

/-- Projection of the not-categorized bucket. -/
theorem classify_notCategorized (records : List Record) (hp : Bool) (rfts : List String) :
    (classify records hp rfts).notCategorized =
      (hpFilter records hp).filter (fun r => !(handledTopics rfts).contains r.topic) := rfl

/-- Topic selections keep rows of the frame in order. -/
theorem rows_by_topics_sublist (df : List Record) (topics : List String) :
    (rows_by_topics df topics).Sublist df :=
  List.filter_sublist df

/-- The high-priority filter keeps input records in order. -/
theorem hpFilter_sublist (records : List Record) (hp : Bool) :
    (hpFilter records hp).Sublist records := by
  cases hp
  · exact List.Sublist.refl _
  · exact List.filter_sublist _

/-- Every bucket selection is an order-preserving subselection of the
high-priority-filtered frame. -/
theorem bucket_sublist_df (records : List Record) (hp : Bool) (rfts : List String) :
    ∀ l ∈ bucketLists (classify records hp rfts), l.Sublist (hpFilter records hp) := by
  intro l hl
  simp only [bucketLists, List.mem_cons, List.not_mem_nil, or_false] at hl
  rcases hl with rfl | rfl | rfl | rfl | rfl | rfl | rfl | rfl | rfl | rfl | rfl | rfl | rfl | rfl | rfl | rfl
  · rw [classify_redFlags]
    by_cases h : rfts = []
    · rw [if_pos h]
      exact List.nil_sublist _
    · rw [if_neg h]
      exact rows_by_topics_sublist _ _
  · exact rows_by_topics_sublist _ _
  · exact rows_by_topics_sublist _ _
  · exact rows_by_topics_sublist _ _
  · exact rows_by_topics_sublist _ _
  · exact rows_by_topics_sublist _ _
  · exact rows_by_topics_sublist _ _
  · exact rows_by_topics_sublist _ _
  · exact rows_by_topics_sublist _ _
  · exact List.Sublist.trans (List.filter_sublist _) (rows_by_topics_sublist _ _)
  · exact List.Sublist.trans (List.filter_sublist _) (rows_by_topics_sublist _ _)
  · exact List.Sublist.trans (List.filter_sublist _) (rows_by_topics_sublist _ _)
  · exact List.Sublist.trans (List.filter_sublist _) (rows_by_topics_sublist _ _)
  · exact List.Sublist.trans (List.filter_sublist _) (rows_by_topics_sublist _ _)
  · exact List.Sublist.trans (List.filter_sublist _) (rows_by_topics_sublist _ _)
  · exact List.filter_sublist _

/-- C4: parsing the single row of tokens
["Topic:", "Jackpot", "High Priority", "Details:", "$500 payout"] yields
exactly one record with topic "Jackpot", highPriority true, details
"$500 payout", and every other field equal to the empty string. -/
theorem C4_parser_round_trip :
    parse_printed_csv [["Topic:", "Jackpot", "High Priority", "Details:", "$500 payout"]] =
      [{ topic := "Jackpot", details := "$500 payout", highPriority := true }] := by
  decide

/-- C8: for every list of input rows, the parser's output is exactly the
per-row scanned records filtered by the flush condition — a row's record is
kept iff at least one of logNumber, topic, details is non-empty, and
all-empty records are discarded. -/
theorem C8_flush_iff (rows : List (List String)) :
    parse_printed_csv rows = (rows.map parseRow).filter keepRecord := by
  have key : ∀ (rs : List (List String)) (acc : List Record),
      rs.foldl (fun a row => if row = [] then a else flush_record a (parseRow row)) acc =
        acc ++ (rs.map parseRow).filter keepRecord := by
    intro rs
    induction rs with
    | nil =>
      intro acc
      simp
    | cons row rest ih =>
      intro acc
      rw [List.foldl_cons]
      by_cases h : row = []
      · subst h
        rw [if_pos rfl]
        have hk : keepRecord (parseRow []) = false := by decide
        rw [ih]
        simp [List.filter_cons, hk]
      · rw [if_neg h, ih]
        unfold flush_record
        by_cases hk : keepRecord (parseRow row) = true
        · rw [if_pos hk]
          simp [List.filter_cons, hk]
        · rw [if_neg hk]
          simp only [Bool.not_eq_true] at hk
          simp [List.filter_cons, hk]
  unfold parse_printed_csv
  rw [key]
  simp

/-- C8 witness: the flush characterization applied to a concrete pair of
rows, one kept and one (all fields empty) discarded. -/
theorem C8_flush_iff_witness :
    parse_printed_csv [["Topic:", "Jackpot"], ["Location:", "Pit 1"]] =
      (([["Topic:", "Jackpot"], ["Location:", "Pit 1"]].map parseRow).filter keepRecord) :=
  C8_flush_iff [["Topic:", "Jackpot"], ["Location:", "Pit 1"]]

/-- C5: a field label immediately followed by another label token, the
high-priority marker, or an ignored token keeps its own field empty while
the following token is processed in its own right (never consumed as the
label's value); a label that ends the row likewise yields an empty value. -/
theorem C5_label_peek_ahead (cur : Record) (t u : String) (rest : List String) (key : Field)
    (ht : labelMap (pyStrip t) = some key)
    (hu : (labelMap (pyStrip u)).isSome = true ∨ pyStrip u = HIGH_PRIORITY_TOKEN ∨
      pyStrip u ∈ IGNORE_TOKENS) :
    parseRowAux (t :: u :: rest) cur = parseRowAux (u :: rest) (setField cur key "") ∧
    parseRowAux [t] cur = setField cur key "" := by
  obtain ⟨hg1, hg3⟩ := labelMap_guards _ _ ht
  have hnot : ¬(labelMap (pyStrip u) = none ∧ pyStrip u ≠ HIGH_PRIORITY_TOKEN ∧
      pyStrip u ∉ IGNORE_TOKENS) := by
    rcases hu with h | h | h
    · rintro ⟨h1, -, -⟩
      rw [h1] at h
      simp at h
    · rintro ⟨-, h2, -⟩
      exact h2 h
    · rintro ⟨-, -, h3⟩
      exact h3 h
  constructor
  · simp only [parseRowAux, ht, if_neg hg1, if_neg hg3, if_neg hnot]
  · simp only [parseRowAux, ht, if_neg hg1, if_neg hg3]

/-- C5 witness: "Topic:" followed by the label "Details:" leaves the topic
empty and lets "Details:" be processed as a label of its own; a trailing
"Topic:" also yields an empty topic. -/
theorem C5_label_peek_ahead_witness :
    parseRowAux ["Topic:", "Details:"] emptyRecord =
      parseRowAux ["Details:"] (setField emptyRecord .topic "") ∧
    parseRowAux ["Topic:"] emptyRecord = setField emptyRecord .topic "" :=
  C5_label_peek_ahead emptyRecord "Topic:" "Details:" [] .topic (by decide)
    (Or.inl (by decide))

/-- C1 counterexample: the claim's "exactly one" fails — a high-priority
Observation whose location matches the Cage predicate and whose sublocation
carries a table marker lands in both the Tables and the Cage/Count
Observation sub-buckets, and with "Jackpot" configured as a red-flag topic
a Jackpot record lands in both the RedFlags and the Slots topic-exact
buckets. -/
theorem C1_exactly_one_counterexample :
    (obsCageBJ ∈ (classify [obsCageBJ] true []).obsTables ∧
      obsCageBJ ∈ (classify [obsCageBJ] true []).obsCageCount) ∧
    (jackpotRec ∈ (classify [jackpotRec] true ["Jackpot"]).redFlags ∧
      jackpotRec ∈ (classify [jackpotRec] true ["Jackpot"]).slots) := by
  decide

/-- C1 (amended): every record surviving the high-priority filter appears
in at least one bucket — a topic-exact bucket, an Observation sub-bucket
(one or, on overlapping location/sublocation matches, two), a
Procedural-Error sub-bucket, or Not Categorized — so no record is dropped,
and a record lands in Not Categorized exactly when its topic is in none of
the consumed topic sets. -/
theorem C1_classifier_coverage (records : List Record) (hp : Bool) (rfts : List String)
    (r : Record) (hr : r ∈ hpFilter records hp) :
    inSomeBucket r (classify records hp rfts) ∧
    (r.topic ∉ handledTopics rfts ↔ r ∈ (classify records hp rfts).notCategorized) := by
  have hnc : r.topic ∉ handledTopics rfts ↔ r ∈ (classify records hp rfts).notCategorized := by
    rw [classify_notCategorized, List.mem_filter]
    constructor
    · intro h
      refine ⟨hr, ?_⟩
      rw [Bool.not_eq_true', Bool.eq_false_iff]
      intro hc
      exact h (List.elem_iff.mp hc)
    · rintro ⟨-, h2⟩ hmem
      rw [Bool.not_eq_true'] at h2
      have h3 : (handledTopics rfts).contains r.topic = true := List.elem_iff.mpr hmem
      rw [h3] at h2
      simp at h2
  refine ⟨?_, hnc⟩
  by_cases h : r.topic ∈ handledTopics rfts
  case neg =>
    exact ⟨(classify records hp rfts).notCategorized, by simp [bucketLists], hnc.mp h⟩
  case pos =>
    by_cases h1 : r.topic ∈ topics_reviews
    · refine ⟨(classify records hp rfts).reviews, by simp [bucketLists], ?_⟩
      rw [classify_reviews]
      exact mem_rows_by_topics.mpr ⟨hr, h1⟩
    by_cases h2 : r.topic = "Observation"
    · have hobs : r ∈ rows_by_topics (hpFilter records hp) ["Observation"] :=
        mem_rows_by_topics.mpr ⟨hr, by simp [h2]⟩
      by_cases ht1 : is_table_games_observation r = true
      · refine ⟨(classify records hp rfts).obsTables, by simp [bucketLists], ?_⟩
        rw [classify_obsTables]
        exact List.mem_filter.mpr ⟨hobs, ht1⟩
      by_cases ht2 : obs_cage_pred r = true
      · refine ⟨(classify records hp rfts).obsCageCount, by simp [bucketLists], ?_⟩
        rw [classify_obsCageCount]
        exact List.mem_filter.mpr ⟨hobs, ht2⟩
      · refine ⟨(classify records hp rfts).obsMisc, by simp [bucketLists], ?_⟩
        rw [classify_obsMisc]
        refine List.mem_filter.mpr ⟨hobs, ?_⟩
        simp only [Bool.not_eq_true] at ht1 ht2
        simp [ht1, ht2]
    by_cases h3 : r.topic ∈ topics_slots
    · refine ⟨(classify records hp rfts).slots, by simp [bucketLists], ?_⟩
      rw [classify_slots]
      exact mem_rows_by_topics.mpr ⟨hr, h3⟩
    by_cases h4 : r.topic ∈ topics_removals
    · refine ⟨(classify records hp rfts).removals, by simp [bucketLists], ?_⟩
      rw [classify_removals]
      exact mem_rows_by_topics.mpr ⟨hr, h4⟩
    by_cases h5 : r.topic ∈ topics_misc
    · refine ⟨(classify records hp rfts).miscTopic, by simp [bucketLists], ?_⟩
      rw [classify_miscTopic]
      exact mem_rows_by_topics.mpr ⟨hr, h5⟩
    by_cases h6 : r.topic ∈ topics_highlights
    · refine ⟨(classify records hp rfts).highlights, by simp [bucketLists], ?_⟩
      rw [classify_highlights]
      exact mem_rows_by_topics.mpr ⟨hr, h6⟩
    by_cases h7 : r.topic ∈ topics_idshots
    · refine ⟨(classify records hp rfts).idShots, by simp [bucketLists], ?_⟩
      rw [classify_idShots]
      exact mem_rows_by_topics.mpr ⟨hr, h7⟩
    by_cases h8 : r.topic ∈ topics_parkade
    · refine ⟨(classify records hp rfts).parkade, by simp [bucketLists], ?_⟩
      rw [classify_parkade]
      exact mem_rows_by_topics.mpr ⟨hr, h8⟩
    by_cases h9 : r.topic ∈ topics_visitors
    · refine ⟨(classify records hp rfts).visitors, by simp [bucketLists], ?_⟩
      rw [classify_visitors]
      exact mem_rows_by_topics.mpr ⟨hr, h9⟩
    by_cases h10 : r.topic = "Procedural Error"
    · have hpro : r ∈ rows_by_topics (hpFilter records hp) ["Procedural Error"] :=
        mem_rows_by_topics.mpr ⟨hr, by simp [h10]⟩
      by_cases hp1 : pro_cage_pred r = true
      · refine ⟨(classify records hp rfts).proCageCount, by simp [bucketLists], ?_⟩
        rw [classify_proCageCount]
        exact List.mem_filter.mpr ⟨hpro, hp1⟩
      by_cases hp2 : is_table_games_site r = true
      · refine ⟨(classify records hp rfts).proTables, by simp [bucketLists], ?_⟩
        rw [classify_proTables]
        exact List.mem_filter.mpr ⟨hpro, hp2⟩
      · refine ⟨(classify records hp rfts).proMisc, by simp [bucketLists], ?_⟩
        rw [classify_proMisc]
        refine List.mem_filter.mpr ⟨hpro, ?_⟩
        simp only [Bool.not_eq_true] at hp1 hp2
        simp [hp1, hp2]
    by_cases h11 : r.topic ∈ rfts
    · refine ⟨(classify records hp rfts).redFlags, by simp [bucketLists], ?_⟩
      rw [classify_redFlags, if_neg (List.ne_nil_of_mem h11)]
      exact mem_rows_by_topics.mpr ⟨hr, h11⟩
    · exfalso
      simp [handledTopics, h1, h2, h3, h4, h5, h6, h7, h8, h9, h10, h11] at h

/-- C1 witness: coverage applied to a single filtered record with an
unrecognized topic, which therefore lands in Not Categorized. -/
theorem C1_classifier_coverage_witness :
    inSomeBucket unknownTopicRec (classify [unknownTopicRec] true []) ∧
    (unknownTopicRec.topic ∉ handledTopics [] ↔
      unknownTopicRec ∈ (classify [unknownTopicRec] true []).notCategorized) :=
  C1_classifier_coverage [unknownTopicRec] true [] unknownTopicRec (by decide)

/-- C2 counterexample: an Observation in the Count Room whose sublocation
carries the UTH table marker satisfies both sub-bucket predicates and is
assigned to Tables AND CageCount, refuting the claim's else-chain /
"no record in two sub-buckets". -/
theorem C2_exclusive_chain_counterexample :
    obsCountUTH ∈ (classify [obsCountUTH] true []).obsTables ∧
    obsCountUTH ∈ (classify [obsCountUTH] true []).obsCageCount := by
  decide

/-- C2 (amended): for every filtered record with topic exactly
"Observation", classification puts it in Tables iff the table-games
predicate holds (location contains "PIT" or sublocation contains a table
marker, case-insensitively), in CageCount iff the location contains "Cage"
or "Count Room" (case-insensitively) — the two tested independently, not
as an ordered chain — and in Misc-Other iff neither holds; Misc-Other is
disjoint from the other two, but a record matching both predicates appears
in both Tables and CageCount. -/
theorem C2_observation_routing (records : List Record) (hp : Bool) (rfts : List String)
    (r : Record) (hr : r ∈ hpFilter records hp) (htop : r.topic = "Observation") :
    (r ∈ (classify records hp rfts).obsTables ↔ is_table_games_observation r = true) ∧
    (r ∈ (classify records hp rfts).obsCageCount ↔ obs_cage_pred r = true) ∧
    (r ∈ (classify records hp rfts).obsMisc ↔
      (is_table_games_observation r = false ∧ obs_cage_pred r = false)) ∧
    ¬(r ∈ (classify records hp rfts).obsTables ∧ r ∈ (classify records hp rfts).obsMisc) ∧
    ¬(r ∈ (classify records hp rfts).obsCageCount ∧ r ∈ (classify records hp rfts).obsMisc) := by
  have hobs : r ∈ rows_by_topics (hpFilter records hp) ["Observation"] :=
    mem_rows_by_topics.mpr ⟨hr, by simp [htop]⟩
  have iT : r ∈ (classify records hp rfts).obsTables ↔ is_table_games_observation r = true := by
    rw [classify_obsTables, List.mem_filter]
    exact ⟨fun h => h.2, fun h => ⟨hobs, h⟩⟩
  have iC : r ∈ (classify records hp rfts).obsCageCount ↔ obs_cage_pred r = true := by
    rw [classify_obsCageCount, List.mem_filter]
    exact ⟨fun h => h.2, fun h => ⟨hobs, h⟩⟩
  have iM : r ∈ (classify records hp rfts).obsMisc ↔
      (is_table_games_observation r = false ∧ obs_cage_pred r = false) := by
    rw [classify_obsMisc, List.mem_filter]
    constructor
    · rintro ⟨-, h⟩
      rw [Bool.and_eq_true, Bool.not_eq_true', Bool.not_eq_true'] at h
      exact h
    · rintro ⟨hf1, hf2⟩
      refine ⟨hobs, ?_⟩
      rw [Bool.and_eq_true, Bool.not_eq_true', Bool.not_eq_true']
      exact ⟨hf1, hf2⟩
  refine ⟨iT, iC, iM, ?_, ?_⟩
  · rintro ⟨hA, hB⟩
    rw [(iM.mp hB).1] at iT
    exact Bool.false_ne_true (iT.mp hA)
  · rintro ⟨hA, hB⟩
    rw [(iM.mp hB).2] at iC
    exact Bool.false_ne_true (iC.mp hA)

/-- C2 witness: the routing characterization applied to a concrete
Observation record that the Tables predicate accepts. -/
theorem C2_observation_routing_witness :
    obsCountUTH ∈ (classify [obsCountUTH] true []).obsTables :=
  (C2_observation_routing [obsCountUTH] true [] obsCountUTH (by decide) (by decide)).1.mpr
    (by decide)

/-- C3 counterexample: a Procedural Error at the Main Bank whose
sublocation carries the POKER table marker satisfies both sub-bucket
predicates and is assigned to Procedural-Error-Tables AND
Procedural-Error-CageCount, refuting the claim's "no record in two of
these sub-buckets". -/
theorem C3_exclusive_partition_counterexample :
    proMainBankPoker ∈ (classify [proMainBankPoker] true []).proTables ∧
    proMainBankPoker ∈ (classify [proMainBankPoker] true []).proCageCount := by
  decide

/-- C3 (amended): for every filtered record with topic exactly
"Procedural Error", classification puts it in Procedural-Error-Tables iff
the same table-games site predicate as for Observation records holds, in
Procedural-Error-CageCount iff the location contains one of "Cage",
"Count Room", "Main Bank", "TITO Self Redemption" (case-insensitively) —
the two tested independently — and in Procedural-Error-Misc iff neither
holds; Misc is disjoint from the other two, but a record matching both
predicates appears in both Tables and CageCount. -/
theorem C3_procedural_error_routing (records : List Record) (hp : Bool) (rfts : List String)
    (r : Record) (hr : r ∈ hpFilter records hp) (htop : r.topic = "Procedural Error") :
    (r ∈ (classify records hp rfts).proTables ↔ is_table_games_site r = true) ∧
    (r ∈ (classify records hp rfts).proCageCount ↔ pro_cage_pred r = true) ∧
    (r ∈ (classify records hp rfts).proMisc ↔
      (pro_cage_pred r = false ∧ is_table_games_site r = false)) ∧
    ¬(r ∈ (classify records hp rfts).proTables ∧ r ∈ (classify records hp rfts).proMisc) ∧
    ¬(r ∈ (classify records hp rfts).proCageCount ∧ r ∈ (classify records hp rfts).proMisc) := by
  have hpro : r ∈ rows_by_topics (hpFilter records hp) ["Procedural Error"] :=
    mem_rows_by_topics.mpr ⟨hr, by simp [htop]⟩
  have iT : r ∈ (classify records hp rfts).proTables ↔ is_table_games_site r = true := by
    rw [classify_proTables, List.mem_filter]
    exact ⟨fun h => h.2, fun h => ⟨hpro, h⟩⟩
  have iC : r ∈ (classify records hp rfts).proCageCount ↔ pro_cage_pred r = true := by
    rw [classify_proCageCount, List.mem_filter]
    exact ⟨fun h => h.2, fun h => ⟨hpro, h⟩⟩
  have iM : r ∈ (classify records hp rfts).proMisc ↔
      (pro_cage_pred r = false ∧ is_table_games_site r = false) := by
    rw [classify_proMisc, List.mem_filter]
    constructor
    · rintro ⟨-, h⟩
      rw [Bool.and_eq_true, Bool.not_eq_true', Bool.not_eq_true'] at h
      exact h
    · rintro ⟨hf1, hf2⟩
      refine ⟨hpro, ?_⟩
      rw [Bool.and_eq_true, Bool.not_eq_true', Bool.not_eq_true']
      exact ⟨hf1, hf2⟩
  refine ⟨iT, iC, iM, ?_, ?_⟩
  · rintro ⟨hA, hB⟩
    rw [(iM.mp hB).2] at iT
    exact Bool.false_ne_true (iT.mp hA)
  · rintro ⟨hA, hB⟩
    rw [(iM.mp hB).1] at iC
    exact Bool.false_ne_true (iC.mp hA)

/-- C3 witness: the routing characterization applied to a concrete
Procedural Error record that the widened cage predicate accepts. -/
theorem C3_procedural_error_routing_witness :
    proMainBankPoker ∈ (classify [proMainBankPoker] true []).proCageCount :=
  (C3_procedural_error_routing [proMainBankPoker] true [] proMainBankPoker (by decide)
    (by decide)).2.1.mpr (by decide)

/-- C6: with the high-priority-only option enabled, only records with the
flag set are bucketed at all — for a high-priority and a low-priority
Jackpot record, the Slots bucket contains exactly the first, and the
second appears in no bucket. -/
theorem C6_high_priority_filter (r1 r2 : Record) (rfts : List String)
    (h1t : r1.topic = "Jackpot") (h1p : r1.highPriority = true)
    (_h2t : r2.topic = "Jackpot") (h2p : r2.highPriority = false) :
    (classify [r1, r2] true rfts).slots = [r1] ∧
    ∀ l ∈ bucketLists (classify [r1, r2] true rfts), r2 ∉ l := by
  have hdf : hpFilter [r1, r2] true = [r1] := by
    simp [hpFilter, List.filter, h1p, h2p]
  constructor
  · rw [classify_slots, hdf]
    simp [rows_by_topics, List.filter, topics_slots, h1t]
  · intro l hl hmem
    have hsub := bucket_sublist_df [r1, r2] true rfts l hl
    rw [hdf] at hsub
    have heq : r2 ∈ [r1] := hsub.subset hmem
    simp only [List.mem_singleton] at heq
    rw [heq, h1p] at h2p
    exact Bool.false_ne_true h2p.symm

/-- C6 witness: the filter applied to the concrete high/low-priority
Jackpot pair. -/
theorem C6_high_priority_filter_witness :
    (classify [hpJackpot, lpJackpot] true []).slots = [hpJackpot] ∧
    ∀ l ∈ bucketLists (classify [hpJackpot, lpJackpot] true []), lpJackpot ∉ l :=
  C6_high_priority_filter hpJackpot lpJackpot [] rfl rfl rfl rfl

/-- C7: the Tables/Slots compact joins and the spaced Reviews join behave
as documented, but the source also joins the Visitors section and the
Cage/Count Observation section with a single line break, contradicting the
module docstring's spacing rule (compact only for Observations-tables,
Jackpots, Parkade Scans, ID Shots) on which the claim is based. -/
theorem C7_compact_spacing_divergence :
    slotsText (classify [slotsA, slotsB] true []) = "a<br>b" ∧
    reviewsText (classify [reviewA, reviewB] true []) = "a<br><br>b" ∧
    visitorsText (classify [visA, visB] true []) = "a<br>b" ∧
    cageCountText (classify [obsCageA, obsCageB] true []) = "a<br>b" := by
  decide

/-- C9: classification is a deterministic pure function — identical inputs
give identical buckets — and every bucket lists its records in stable
insertion order, being an order-preserving subselection of the input
collection, which the (pure) classification never modifies. -/
theorem C9_classification_deterministic (records : List Record) (hp : Bool)
    (rfts : List String) :
    classify records hp rfts = classify records hp rfts ∧
    ∀ l ∈ bucketLists (classify records hp rfts), l.Sublist records :=
  ⟨rfl, fun l hl => (bucket_sublist_df records hp rfts l hl).trans (hpFilter_sublist records hp)⟩

/-- C9 witness: determinism and stable order at a concrete one-record
input. -/
theorem C9_classification_deterministic_witness :
    classify [hpJackpot] true [] = classify [hpJackpot] true [] ∧
    ∀ l ∈ bucketLists (classify [hpJackpot] true []), l.Sublist [hpJackpot] :=
  C9_classification_deterministic [hpJackpot] true []

/-- C10: for the Highlights, combined Misc and each Procedural-Error
section, a joined details text equal to the literal "N/A" — in particular
a single record whose stripped details is "N/A" — is normalized to the
empty string, which is exactly what an empty bucket also renders, so
genuine "N/A" content is indistinguishable from an empty section. -/
theorem C10_na_suppression (records : List Record) (hp : Bool) (rfts : List String) :
    (lines_join_section ((classify records hp rfts).highlights.map details_only) false = "N/A" →
      highlightsText (classify records hp rfts) = "") ∧
    (lines_join_section ((miscCombined (classify records hp rfts)).map details_only) false = "N/A" →
      miscOtherText (classify records hp rfts) = "") ∧
    (lines_join_section ((classify records hp rfts).proTables.map details_only) false = "N/A" →
      proTablesText (classify records hp rfts) = "") ∧
    (lines_join_section ((classify records hp rfts).proCageCount.map details_only) false = "N/A" →
      proCageCountText (classify records hp rfts) = "") ∧
    (lines_join_section ((classify records hp rfts).proMisc.map details_only) false = "N/A" →
      proMiscText (classify records hp rfts) = "") ∧
    highlightsText (classify [] hp rfts) = "" ∧
    miscOtherText (classify [] hp rfts) = "" ∧
    proTablesText (classify [] hp rfts) = "" ∧
    proCageCountText (classify [] hp rfts) = "" ∧
    proMiscText (classify [] hp rfts) = "" := by
  refine ⟨?_, ?_, ?_, ?_, ?_, ?_, ?_, ?_, ?_, ?_⟩
  · intro h
    unfold highlightsText
    rw [h]
    rfl
  · intro h
    unfold miscOtherText
    rw [h]
    rfl
  · intro h
    unfold proTablesText
    rw [h]
    rfl
  · intro h
    unfold proCageCountText
    rw [h]
    rfl
  · intro h
    unfold proMiscText
    rw [h]
    rfl
  · cases hp <;> rfl
  · cases hp <;> rfl
  · cases hp <;> rfl
  · cases hp <;> rfl
  · cases hp <;> rfl

/-- C10 witness: a collection whose five suppressible sections each hold a
single record with details literally "N/A" — all five render empty. -/
theorem C10_na_suppression_witness :
    highlightsText (classify naRecords true []) = "" ∧
    miscOtherText (classify naRecords true []) = "" ∧
    proTablesText (classify naRecords true []) = "" ∧
    proCageCountText (classify naRecords true []) = "" ∧
    proMiscText (classify naRecords true []) = "" := by
  have h := C10_na_suppression naRecords true []
  exact ⟨h.1 (by decide), h.2.1 (by decide), h.2.2.1 (by decide),
    h.2.2.2.1 (by decide), h.2.2.2.2.1 (by decide)⟩

end ShiftReport
